import Mathlib

/-!
GuardCondition (rmw_fastrtps_shared_cpp/src/types/guard_condition.hpp)

A shallow embedding of the `GuardCondition` class.  The object is a record of
its seven data members (the two internal mutexes carry no data and show up only
as lock/unlock effects).  Every member function becomes a function from the
state before the call to an `Outcome`: the returned value, the state after
the call, and the trace of externally visible effects in program order
(mutex acquisitions and releases, writes of the atomic flag, invocations of the
executor callback, `notify_one` calls).

Pointers are natural numbers with `0` for `nullptr`; `uint64_t` is a natural
number reduced modulo `2 ^ 64` where the source arithmetic can wrap.
-/

namespace GuardConditionModel

/-- A raw pointer (`const void *`, `std::mutex *`, `std::condition_variable *`,
or a function pointer): its address, `0` being `nullptr`. -/
abbrev Ptr := Nat

/-- The null pointer. -/
abbrev nullptr : Ptr := 0

/-- Number of values of a `uint64_t`. -/
abbrev UINT64_SIZE : Nat := 2 ^ 64

/-- Modelled from the spec: the enum of `rcutils/executor_event_types.h`, a
header that is not part of the source tree.  The guard condition only ever
passes the fixed tag `WAITABLE_EVENT`; every other tag of the enum is
`OTHER_EVENT`. -/
inductive ExecutorEventType where
  | WAITABLE_EVENT
  | OTHER_EVENT (tag : Nat)
deriving DecidableEq, Repr

/-- Modelled from the spec: the `ExecutorEvent` aggregate of
`rcutils/executor_event_types.h`, built in the source by the braced list
`{ waitable_handle_, WAITABLE_EVENT }`: an opaque handle and an event tag. -/
structure ExecutorEvent where
  entity : Ptr
  type : ExecutorEventType
deriving DecidableEq, Repr

/-- The mutexes the class locks: its two own members and the external mutex
`*conditionMutex_` borrowed from the waiter. -/
inductive Mutex where
  | executor_callback_mutex_
  | internalMutex_
  | external (conditionMutex : Ptr)
deriving DecidableEq, Repr

/-- One externally visible step of a member function. -/
inductive Effect where
  /-- A mutex is acquired (constructor of a `unique_lock` / `lock_guard`). -/
  | lock (m : Mutex)
  /-- A mutex is released (explicit `unlock()` or end of the guard's scope). -/
  | unlock (m : Mutex)
  /-- The call `fn(context, event)` through the function pointer `fn`. -/
  | call (fn : Ptr) (context : Ptr) (event : ExecutorEvent)
  /-- A write of `value` to the atomic `hasTriggered_`. -/
  | store_hasTriggered (value : Bool)
  /-- The call `conditionVariable->notify_one()`. -/
  | notify_one (conditionVariable : Ptr)
deriving DecidableEq, Repr

/-- The data members of `GuardCondition`. -/
structure GuardCondition where
  hasTriggered_ : Bool
  conditionMutex_ : Ptr
  conditionVariable_ : Ptr
  executor_callback_ : Ptr
  waitable_handle_ : Ptr
  executor_context_ : Ptr
  unread_count_ : Nat
deriving DecidableEq, Repr

/-- What a member function call produces: its return value, the object after
the call and the effects it performed, in order. -/
structure Outcome (α : Type) where
  ret : α
  state : GuardCondition
  trace : List Effect
deriving DecidableEq, Repr

namespace GuardCondition

/-- The constructor `GuardCondition()` together with the default member
initialisers. -/
def new : GuardCondition :=
  { hasTriggered_ := false
    conditionMutex_ := nullptr
    conditionVariable_ := nullptr
    executor_callback_ := nullptr
    waitable_handle_ := nullptr
    executor_context_ := nullptr
    unread_count_ := 0 }

/-- The member function `trigger()`. -/
def trigger (s : GuardCondition) : Outcome Unit :=
  if s.executor_callback_ ≠ nullptr then
    { ret := ()
      state := s
      trace :=
        [ Effect.lock Mutex.executor_callback_mutex_,
          Effect.call s.executor_callback_ s.executor_context_
            ⟨s.waitable_handle_, ExecutorEventType.WAITABLE_EVENT⟩,
          Effect.unlock Mutex.executor_callback_mutex_ ] }
  else if s.conditionMutex_ ≠ nullptr then
    { ret := ()
      state :=
        { s with
          hasTriggered_ := true
          unread_count_ := (s.unread_count_ + 1) % UINT64_SIZE }
      trace :=
        [ Effect.lock Mutex.executor_callback_mutex_,
          Effect.lock Mutex.internalMutex_,
          Effect.lock (Mutex.external s.conditionMutex_),
          Effect.store_hasTriggered true,
          Effect.unlock (Mutex.external s.conditionMutex_),
          Effect.notify_one s.conditionVariable_,
          Effect.unlock Mutex.internalMutex_,
          Effect.unlock Mutex.executor_callback_mutex_ ] }
  else
    { ret := ()
      state :=
        { s with
          hasTriggered_ := true
          unread_count_ := (s.unread_count_ + 1) % UINT64_SIZE }
      trace :=
        [ Effect.lock Mutex.executor_callback_mutex_,
          Effect.lock Mutex.internalMutex_,
          Effect.store_hasTriggered true,
          Effect.unlock Mutex.internalMutex_,
          Effect.unlock Mutex.executor_callback_mutex_ ] }

/-- The member function `attachCondition(conditionMutex, conditionVariable)`. -/
def attachCondition (s : GuardCondition) (conditionMutex conditionVariable : Ptr) :
    Outcome Unit :=
  { ret := ()
    state :=
      { s with
        conditionMutex_ := conditionMutex
        conditionVariable_ := conditionVariable }
    trace := [Effect.lock Mutex.internalMutex_, Effect.unlock Mutex.internalMutex_] }

/-- The member function `detachCondition()`. -/
def detachCondition (s : GuardCondition) : Outcome Unit :=
  { ret := ()
    state :=
      { s with
        conditionMutex_ := nullptr
        conditionVariable_ := nullptr }
    trace := [Effect.lock Mutex.internalMutex_, Effect.unlock Mutex.internalMutex_] }

/-- The member function `hasTriggered()`: an atomic load. -/
def hasTriggered (s : GuardCondition) : Outcome Bool :=
  { ret := s.hasTriggered_
    state := s
    trace := [] }

/-- The member function `getHasTriggered()`: `hasTriggered_.exchange(false)`. -/
def getHasTriggered (s : GuardCondition) : Outcome Bool :=
  { ret := s.hasTriggered_
    state := { s with hasTriggered_ := false }
    trace := [Effect.store_hasTriggered false] }

/-- The replay loop of `guardConditionSetExecutorCallback`,
`for (uint64_t i = 0; i < unread_count_; i++) executor_callback_(...)`,
started at loop index `i`: the calls it makes.  The index stays below
`unread_count_`, a `uint64_t`, so `i++` cannot wrap. -/
def replayLoop (s : GuardCondition) (i : Nat) : List Effect :=
  if i < s.unread_count_ then
    Effect.call s.executor_callback_ s.executor_context_
        ⟨s.waitable_handle_, ExecutorEventType.WAITABLE_EVENT⟩ ::
      replayLoop s (i + 1)
  else
    []
termination_by s.unread_count_ - i

/-- The member function `guardConditionSetExecutorCallback(executor_context,
callback, waitable_handle, use_previous_events)`. -/
def guardConditionSetExecutorCallback (s : GuardCondition)
    (executor_context callback waitable_handle : Ptr) (use_previous_events : Bool) :
    Outcome Unit :=
  if executor_context ≠ nullptr ∧ waitable_handle ≠ nullptr ∧ callback ≠ nullptr then
    let s₁ : GuardCondition :=
      { s with
        executor_context_ := executor_context
        executor_callback_ := callback
        waitable_handle_ := waitable_handle }
    { ret := ()
      state := { s₁ with unread_count_ := 0 }
      trace :=
        [Effect.lock Mutex.executor_callback_mutex_] ++
          (if use_previous_events then replayLoop s₁ 0 else []) ++
          [Effect.unlock Mutex.executor_callback_mutex_] }
  else
    { ret := ()
      state :=
        { s with
          executor_context_ := nullptr
          executor_callback_ := nullptr
          waitable_handle_ := nullptr }
      trace :=
        [ Effect.lock Mutex.executor_callback_mutex_,
          Effect.unlock Mutex.executor_callback_mutex_ ] }

end GuardCondition

/-- The executor callback invocations of a trace, in order: the function
called, the context passed and the event passed. -/
def callbackCalls : List Effect → List (Ptr × Ptr × ExecutorEvent)
  | [] => []
  | Effect.call fn context event :: rest => (fn, context, event) :: callbackCalls rest
  | _ :: rest => callbackCalls rest

/-- The condition variables signalled by a trace, in order. -/
def signals : List Effect → List Ptr
  | [] => []
  | Effect.notify_one cv :: rest => cv :: signals rest
  | _ :: rest => signals rest

/-- A call of one public member function, with its arguments. -/
inductive Op where
  | trigger
  | attachCondition (conditionMutex conditionVariable : Ptr)
  | detachCondition
  | hasTriggered
  | getHasTriggered
  | guardConditionSetExecutorCallback (executor_context callback waitable_handle : Ptr)
      (use_previous_events : Bool)
deriving DecidableEq, Repr

/-- Performs one call on the object: the object afterwards and the effects of
the call (the returned value of the two readers is dropped). -/
def step (s : GuardCondition) : Op → GuardCondition × List Effect
  | Op.trigger => (s.trigger.state, s.trigger.trace)
  | Op.attachCondition m cv => ((s.attachCondition m cv).state, (s.attachCondition m cv).trace)
  | Op.detachCondition => (s.detachCondition.state, s.detachCondition.trace)
  | Op.hasTriggered => (s.hasTriggered.state, s.hasTriggered.trace)
  | Op.getHasTriggered => (s.getHasTriggered.state, s.getHasTriggered.trace)
  | Op.guardConditionSetExecutorCallback ctx cb h upe =>
      ((s.guardConditionSetExecutorCallback ctx cb h upe).state,
        (s.guardConditionSetExecutorCallback ctx cb h upe).trace)

/-- Performs a sequence of calls one after the other, starting from `s`: the
object at the end and the concatenated effects. -/
def run (s : GuardCondition) : List Op → GuardCondition × List Effect
  | [] => (s, [])
  | op :: ops => ((run (step s op).1 ops).1, (step s op).2 ++ (run (step s op).1 ops).2)

/-- The registration `op`, when it is a valid one (all three pointers
non-null), asks for the replay of previous events.  Holds of every other
call. -/
def Op.replaysWhenValid : Op → Prop
  | Op.guardConditionSetExecutorCallback ctx cb h upe =>
      (ctx ≠ nullptr ∧ h ≠ nullptr ∧ cb ≠ nullptr) → upe = true
  | _ => True

instance (op : Op) : Decidable op.replaysWhenValid := by
  cases op <;> unfold Op.replaysWhenValid <;> infer_instance

/-- Number of `trigger()` calls in a sequence of calls. -/
def triggerCount (ops : List Op) : Nat :=
  ops.count Op.trigger

/-- Whether an effect acts on the waiter's external pair or on the triggered
flag: an acquisition or release of the external mutex, a write of the flag, a
`notify_one`. -/
def Effect.onWaitHandle : Effect → Bool
  | Effect.lock (Mutex.external _) => true
  | Effect.unlock (Mutex.external _) => true
  | Effect.store_hasTriggered _ => true
  | Effect.notify_one _ => true
  | _ => false

/-- Whether, somewhere in a trace, mutex `a` is acquired while mutex `b` is
held; `held` lists the mutexes held when the trace starts. -/
def acquiresWhileHolding (a b : Mutex) : List Mutex → List Effect → Bool
  | _, [] => false
  | held, Effect.lock m :: rest =>
      (decide (m = a) && held.contains b) || acquiresWhileHolding a b (m :: held) rest
  | held, Effect.unlock m :: rest => acquiresWhileHolding a b (held.erase m) rest
  | held, Effect.call _ _ _ :: rest => acquiresWhileHolding a b held rest
  | held, Effect.store_hasTriggered _ :: rest => acquiresWhileHolding a b held rest
  | held, Effect.notify_one _ :: rest => acquiresWhileHolding a b held rest

/-! ## A waiter running concurrently with `trigger()` -/

/-- The two threads of the wake-up scenario: the one that calls `trigger()`
and the one that waits. -/
inductive Thread where
  | producer
  | waiter
deriving DecidableEq, Repr

/-- What one effect of the triggering thread is to a waiter that waits on the
pair `(wm, wcv)`: an acquisition or release of the waiter's mutex, a write of
the flag, a `notify_one` on the waiter's condition variable, or a step the
waiter cannot observe. -/
inductive Action where
  | acquire
  | release
  | setFlag (value : Bool)
  | notify
  | internal
deriving DecidableEq, Repr

/-- Reads an effect of a member function as an action on the waiter's pair
`(wm, wcv)`. -/
def Effect.toAction (wm wcv : Ptr) : Effect → Action
  | Effect.lock (Mutex.external m) => if m = wm then Action.acquire else Action.internal
  | Effect.unlock (Mutex.external m) => if m = wm then Action.release else Action.internal
  | Effect.store_hasTriggered value => Action.setFlag value
  | Effect.notify_one cv => if cv = wcv then Action.notify else Action.internal
  | _ => Action.internal

/-- Modelled from the spec: the waiter, which is not part of the source tree.
It "checks `hasTriggered()` under the external mutex and then blocks on the
external condition variable".  Its program points: before locking the mutex;
holding the mutex before the check; holding the mutex after a check that
returned false, before `wait`; blocked inside `wait` (mutex released);
unblocked by a `notify_one`, before `wait` reacquires the mutex; holding the
mutex again after `wait`, before reading `hasTriggered()`; holding the mutex
with the value read (`woken` tells whether it went through `wait`); finished,
mutex released. -/
inductive WaiterPc where
  | start
  | locked
  | willWait
  | blocked
  | notified
  | reacquired
  | observed (value : Bool) (woken : Bool)
  | done (value : Bool) (woken : Bool)
deriving DecidableEq, Repr

/-- A moment of the concurrent run: the triggered flag, the owner of the
external mutex, the actions the triggering thread has still to perform, and the
program point of the waiter. -/
structure Config where
  flag : Bool
  owner : Option Thread
  producer : List Action
  waiter : WaiterPc
deriving DecidableEq, Repr

/-- One step of the triggering thread: its next action, when enabled.  An
acquisition waits for the mutex to be free; a release needs the thread to own
the mutex; a `notify_one` unblocks the waiter if it is blocked and is lost
otherwise. -/
def stepProducer (c : Config) : Option Config :=
  match c.producer with
  | [] => none
  | Action.acquire :: rest =>
      if c.owner = none then some { c with owner := some Thread.producer, producer := rest }
      else none
  | Action.release :: rest =>
      if c.owner = some Thread.producer then some { c with owner := none, producer := rest }
      else none
  | Action.setFlag value :: rest => some { c with flag := value, producer := rest }
  | Action.notify :: rest =>
      some { c with
        producer := rest
        waiter := if c.waiter = WaiterPc.blocked then WaiterPc.notified else c.waiter }
  | Action.internal :: rest => some { c with producer := rest }

/-- Modelled from the spec: one step of the waiter, when enabled.  It locks the
mutex, reads `hasTriggered()`, and on false calls `wait`, which releases the
mutex and blocks in one indivisible step; once notified, `wait` reacquires the
mutex, and the waiter reads `hasTriggered()` again and unlocks.  There are no
spurious wake-ups. -/
def stepWaiter (c : Config) : Option Config :=
  match c.waiter with
  | WaiterPc.start =>
      if c.owner = none then some { c with owner := some Thread.waiter, waiter := WaiterPc.locked }
      else none
  | WaiterPc.locked =>
      some { c with waiter := if c.flag then WaiterPc.observed true false else WaiterPc.willWait }
  | WaiterPc.willWait => some { c with owner := none, waiter := WaiterPc.blocked }
  | WaiterPc.blocked => none
  | WaiterPc.notified =>
      if c.owner = none then
        some { c with owner := some Thread.waiter, waiter := WaiterPc.reacquired }
      else none
  | WaiterPc.reacquired => some { c with waiter := WaiterPc.observed c.flag true }
  | WaiterPc.observed value woken =>
      some { c with owner := none, waiter := WaiterPc.done value woken }
  | WaiterPc.done _ _ => none

/-- One step of the chosen thread, when it is enabled. -/
def stepThread (c : Config) : Thread → Option Config
  | Thread.producer => stepProducer c
  | Thread.waiter => stepWaiter c

/-- Runs an interleaving: the threads step in the order of the schedule; the
result is `none` when a scheduled thread cannot step. -/
def exec (c : Config) : List Thread → Option Config
  | [] => some c
  | t :: ts =>
      match stepThread c t with
      | none => none
      | some c₁ => exec c₁ ts

/-- No thread can step. -/
def quiescent (c : Config) : Prop :=
  stepProducer c = none ∧ stepWaiter c = none

instance (c : Config) : Decidable (quiescent c) := by
  unfold quiescent
  infer_instance

/-- The run is over as it should be: the triggering thread has finished and the
waiter has finished with `hasTriggered()` read as true. -/
def wokenTriggered (c : Config) : Bool :=
  decide (c.producer = []) &&
    (decide (c.waiter = WaiterPc.done true true) || decide (c.waiter = WaiterPc.done true false))

/-- A blocked waiter has its signal still ahead: the triggering thread has a
`notify_one` on the waiter's condition variable left to perform. -/
def signalAhead (c : Config) : Bool :=
  decide (c.waiter ≠ WaiterPc.blocked) || c.producer.contains Action.notify

/-- Explores every interleaving from `c`, at most `fuel` steps deep: true when
in each of them a blocked waiter always has its signal ahead, the run ends
within `fuel` steps, and it ends with `wokenTriggered`. -/
def explore : Nat → Config → Bool
  | 0, _ => false
  | fuel + 1, c =>
      signalAhead c &&
        match stepProducer c, stepWaiter c with
        | none, none => wokenTriggered c
        | some c₁, none => explore fuel c₁
        | none, some c₂ => explore fuel c₂
        | some c₁, some c₂ => explore fuel c₁ && explore fuel c₂

/-- The start of the wake-up scenario on the object `s`: a waiter that has
attached and waits on the pair `(conditionMutex_, conditionVariable_)` is
about to lock the mutex, another thread is about to perform the effects of
`s.trigger()`, and the mutex is free. -/
def waitScenario (s : GuardCondition) : Config :=
  { flag := s.hasTriggered_
    owner := none
    producer := s.trigger.trace.map (Effect.toAction s.conditionMutex_ s.conditionVariable_)
    waiter := WaiterPc.start }

/-! ## Auxiliary facts about traces and the replay loop -/

theorem callbackCalls_append (t u : List Effect) :
    callbackCalls (t ++ u) = callbackCalls t ++ callbackCalls u := by
  induction t with
  | nil => rfl
  | cons e t ih => cases e <;> simp [callbackCalls, ih]

theorem signals_append (t u : List Effect) :
    signals (t ++ u) = signals t ++ signals u := by
  induction t with
  | nil => rfl
  | cons e t ih => cases e <;> simp [signals, ih]

/-- The replay loop started at index `i` makes `unread_count_ - i` calls, all
of them to the stored callback with the stored context and handle. -/
theorem callbackCalls_replayLoop (s : GuardCondition) (i : Nat) :
    callbackCalls (GuardCondition.replayLoop s i) =
      List.replicate (s.unread_count_ - i)
        (s.executor_callback_, s.executor_context_,
          (⟨s.waitable_handle_, ExecutorEventType.WAITABLE_EVENT⟩ : ExecutorEvent)) := by
  generalize h : s.unread_count_ - i = n
  induction n generalizing i with
  | zero =>
    rw [GuardCondition.replayLoop, if_neg (by omega)]
    rfl
  | succ n ih =>
    rw [GuardCondition.replayLoop, if_pos (by omega)]
    simp [callbackCalls, List.replicate_succ, ih (i + 1) (by omega)]

/-- The replay loop signals no condition variable. -/
theorem signals_replayLoop (s : GuardCondition) (i : Nat) :
    signals (GuardCondition.replayLoop s i) = [] := by
  generalize h : s.unread_count_ - i = n
  induction n generalizing i with
  | zero =>
    rw [GuardCondition.replayLoop, if_neg (by omega)]
    rfl
  | succ n ih =>
    rw [GuardCondition.replayLoop, if_pos (by omega)]
    simp [signals, ih (i + 1) (by omega)]

/-- The object after `trigger()` when no callback is registered, whichever
branch on the wait handle is taken. -/
theorem trigger_state_of_polling (s : GuardCondition) (hpolling : s.executor_callback_ = nullptr) :
    s.trigger.state =
      { s with hasTriggered_ := true, unread_count_ := (s.unread_count_ + 1) % UINT64_SIZE } := by
  unfold GuardCondition.trigger
  rw [if_neg (by simp [hpolling])]
  split <;> rfl

/-- The calls made by `trigger()` when no callback is registered: none. -/
theorem trigger_calls_of_polling (s : GuardCondition) (hpolling : s.executor_callback_ = nullptr) :
    callbackCalls s.trigger.trace = [] := by
  unfold GuardCondition.trigger
  rw [if_neg (by simp [hpolling])]
  split <;> rfl

/-- One call keeps the balance "callback invocations + unread counter =
triggers", as long as the counter does not wrap and a valid registration
replays. -/
theorem step_balance (s : GuardCondition) (op : Op) (hreplay : op.replaysWhenValid)
    (hbound : s.unread_count_ + triggerCount [op] < UINT64_SIZE) :
    (callbackCalls (step s op).2).length + (step s op).1.unread_count_ =
      s.unread_count_ + triggerCount [op] := by
  cases op with
  | trigger =>
    have hb : s.unread_count_ + 1 < UINT64_SIZE := by simpa [triggerCount] using hbound
    by_cases hcb : s.executor_callback_ = nullptr
    · simp only [step, trigger_state_of_polling s hcb, trigger_calls_of_polling s hcb]
      simp [triggerCount, Nat.mod_eq_of_lt hb]
    · simp only [step, GuardCondition.trigger, if_pos hcb]
      simp [triggerCount, callbackCalls]
      omega
  | attachCondition m cv => simp [step, GuardCondition.attachCondition, callbackCalls, triggerCount]
  | detachCondition => simp [step, GuardCondition.detachCondition, callbackCalls, triggerCount]
  | hasTriggered => simp [step, GuardCondition.hasTriggered, callbackCalls, triggerCount]
  | getHasTriggered => simp [step, GuardCondition.getHasTriggered, callbackCalls, triggerCount]
  | guardConditionSetExecutorCallback ctx cb h upe =>
    by_cases hvalid : ctx ≠ nullptr ∧ h ≠ nullptr ∧ cb ≠ nullptr
    · have hupe : upe = true := hreplay hvalid
      subst hupe
      simp only [step, GuardCondition.guardConditionSetExecutorCallback, if_pos hvalid,
        callbackCalls_append, callbackCalls_replayLoop, if_true]
      simp [callbackCalls, triggerCount]
    · simp only [step, GuardCondition.guardConditionSetExecutorCallback, if_neg hvalid]
      simp [callbackCalls, triggerCount]

/-- The triggers of a sequence: those of its first call plus those of the
rest. -/
theorem triggerCount_cons (op : Op) (ops : List Op) :
    triggerCount (op :: ops) = triggerCount [op] + triggerCount ops := by
  unfold triggerCount
  rw [← List.count_append]
  rfl

/-- A sequence of calls keeps the balance "callback invocations + unread
counter = triggers", from any starting state. -/
theorem run_balance (ops : List Op) (s : GuardCondition)
    (hreplay : ∀ op ∈ ops, op.replaysWhenValid)
    (hbound : s.unread_count_ + triggerCount ops < UINT64_SIZE) :
    (callbackCalls (run s ops).2).length + (run s ops).1.unread_count_ =
      s.unread_count_ + triggerCount ops := by
  induction ops generalizing s with
  | nil => simp [run, callbackCalls, triggerCount]
  | cons op ops ih =>
    rw [triggerCount_cons] at hbound ⊢
    have hstep := step_balance s op (hreplay op (List.mem_cons_self _ _)) (by omega)
    have hrest := ih (step s op).1 (fun o ho => hreplay o (List.mem_cons_of_mem _ ho)) (by omega)
    simp only [run, callbackCalls_append, List.length_append]
    omega

/-- The object after `n` consecutive `trigger()` calls when no callback is
registered and the counter does not wrap. -/
theorem run_replicate_trigger (n : Nat) (s : GuardCondition)
    (hpolling : s.executor_callback_ = nullptr)
    (hbound : s.unread_count_ + n < UINT64_SIZE) :
    (run s (List.replicate n Op.trigger)).1 =
      { s with
        hasTriggered_ := s.hasTriggered_ || decide (0 < n)
        unread_count_ := s.unread_count_ + n } := by
  induction n generalizing s with
  | zero => cases s; simp [run]
  | succ n ih =>
    have hb : s.unread_count_ + 1 < UINT64_SIZE := by omega
    have hs := trigger_state_of_polling s hpolling
    rw [Nat.mod_eq_of_lt hb] at hs
    simp only [List.replicate_succ, run, step]
    rw [ih s.trigger.state (by rw [hs]; exact hpolling) (by rw [hs]; show _ + 1 + n < _; omega), hs]
    simp
    omega

/-- A call other than `trigger()` leaves a cleared flag cleared. -/
theorem step_flag_false (s : GuardCondition) (op : Op) (hop : op ≠ Op.trigger)
    (hflag : s.hasTriggered_ = false) : (step s op).1.hasTriggered_ = false := by
  cases op with
  | trigger => exact absurd rfl hop
  | attachCondition m cv => simpa [step, GuardCondition.attachCondition] using hflag
  | detachCondition => simpa [step, GuardCondition.detachCondition] using hflag
  | hasTriggered => simpa [step, GuardCondition.hasTriggered] using hflag
  | getHasTriggered => simp [step, GuardCondition.getHasTriggered]
  | guardConditionSetExecutorCallback ctx cb h upe =>
    simp only [step, GuardCondition.guardConditionSetExecutorCallback]
    split <;> simpa using hflag

/-- A sequence of calls without `trigger()` leaves a cleared flag cleared. -/
theorem run_flag_false (ops : List Op) (s : GuardCondition) (hops : Op.trigger ∉ ops)
    (hflag : s.hasTriggered_ = false) : (run s ops).1.hasTriggered_ = false := by
  induction ops generalizing s with
  | nil => simpa [run] using hflag
  | cons op ops ih =>
    simp only [List.mem_cons, not_or] at hops
    simp only [run]
    exact ih _ hops.2 (step_flag_false s op (fun h => hops.1 h.symm) hflag)

/-- One call keeps the property "a registered callback implies a zero unread
counter". -/
theorem step_registered_unread (s : GuardCondition) (op : Op)
    (hinv : s.executor_callback_ ≠ nullptr → s.unread_count_ = 0) :
    (step s op).1.executor_callback_ ≠ nullptr → (step s op).1.unread_count_ = 0 := by
  cases op with
  | trigger =>
    by_cases hcb : s.executor_callback_ = nullptr
    · simp only [step, trigger_state_of_polling s hcb]
      intro h
      exact absurd hcb h
    · simp only [step, GuardCondition.trigger, if_pos hcb]
      exact hinv
  | attachCondition m cv => simpa [step, GuardCondition.attachCondition] using hinv
  | detachCondition => simpa [step, GuardCondition.detachCondition] using hinv
  | hasTriggered => simpa [step, GuardCondition.hasTriggered] using hinv
  | getHasTriggered => simpa [step, GuardCondition.getHasTriggered] using hinv
  | guardConditionSetExecutorCallback ctx cb h upe =>
    simp only [step, GuardCondition.guardConditionSetExecutorCallback]
    split <;> simp

/-- A sequence of calls keeps the property "a registered callback implies a
zero unread counter". -/
theorem run_registered_unread (ops : List Op) (s : GuardCondition)
    (hinv : s.executor_callback_ ≠ nullptr → s.unread_count_ = 0) :
    (run s ops).1.executor_callback_ ≠ nullptr → (run s ops).1.unread_count_ = 0 := by
  induction ops generalizing s with
  | nil => simpa [run] using hinv
  | cons op ops ih =>
    simp only [run]
    exact ih _ (step_registered_unread s op hinv)

/-- The object after an unregistering call (one of the three pointers null). -/
theorem unregister_state (s : GuardCondition) (executor_context callback waitable_handle : Ptr)
    (use_previous_events : Bool)
    (hnull : executor_context = nullptr ∨ callback = nullptr ∨ waitable_handle = nullptr) :
    (s.guardConditionSetExecutorCallback executor_context callback waitable_handle
        use_previous_events).state =
      { s with
        executor_context_ := nullptr
        executor_callback_ := nullptr
        waitable_handle_ := nullptr } := by
  unfold GuardCondition.guardConditionSetExecutorCallback
  rw [if_neg (by rcases hnull with h | h | h <;> simp [h])]

/-- The object after a valid registration (all three pointers non-null). -/
theorem register_state (s : GuardCondition) (executor_context callback waitable_handle : Ptr)
    (use_previous_events : Bool)
    (hcontext : executor_context ≠ nullptr) (hcallback : callback ≠ nullptr)
    (hhandle : waitable_handle ≠ nullptr) :
    (s.guardConditionSetExecutorCallback executor_context callback waitable_handle
        use_previous_events).state =
      { s with
        executor_context_ := executor_context
        executor_callback_ := callback
        waitable_handle_ := waitable_handle
        unread_count_ := 0 } := by
  unfold GuardCondition.guardConditionSetExecutorCallback
  rw [if_pos ⟨hcontext, hhandle, hcallback⟩]

/-! ## The claims -/

/-- C1 (replay correctness).  If no callback is registered and the unread
counter is `K`, a registration with non-null context, callback and handle and
`use_previous_events = true` calls the new callback exactly `K` times, every
time with the new context and the event `{new handle, WAITABLE_EVENT}`, and
leaves the unread counter at 0.  Such a state is the one reached by `K`
triggers on a new object, for `K < 2 ^ 64`. -/
theorem C1_replay_correctness (K : Nat) (s : GuardCondition)
    (executor_context callback waitable_handle : Ptr)
    (hpolling : s.executor_callback_ = nullptr) (hK : s.unread_count_ = K)
    (hcontext : executor_context ≠ nullptr) (hcallback : callback ≠ nullptr)
    (hhandle : waitable_handle ≠ nullptr) :
    callbackCalls
        (s.guardConditionSetExecutorCallback executor_context callback waitable_handle
          true).trace =
      List.replicate K
        (callback, executor_context,
          (⟨waitable_handle, ExecutorEventType.WAITABLE_EVENT⟩ : ExecutorEvent)) ∧
    (s.guardConditionSetExecutorCallback executor_context callback waitable_handle
        true).state.unread_count_ = 0 ∧
    (K < UINT64_SIZE →
      (run GuardCondition.new (List.replicate K Op.trigger)).1.executor_callback_ = nullptr ∧
      (run GuardCondition.new (List.replicate K Op.trigger)).1.unread_count_ = K ∧
      callbackCalls
          ((run GuardCondition.new (List.replicate K Op.trigger)).1.guardConditionSetExecutorCallback
            executor_context callback waitable_handle true).trace =
        List.replicate K
          (callback, executor_context,
            (⟨waitable_handle, ExecutorEventType.WAITABLE_EVENT⟩ : ExecutorEvent))) := by
  have hvalid : executor_context ≠ nullptr ∧ waitable_handle ≠ nullptr ∧ callback ≠ nullptr :=
    ⟨hcontext, hhandle, hcallback⟩
  have _ := hpolling
  have hcalls : ∀ t : GuardCondition,
      callbackCalls
          (t.guardConditionSetExecutorCallback executor_context callback waitable_handle
            true).trace =
        List.replicate t.unread_count_
          (callback, executor_context,
            (⟨waitable_handle, ExecutorEventType.WAITABLE_EVENT⟩ : ExecutorEvent)) := by
    intro t
    unfold GuardCondition.guardConditionSetExecutorCallback
    rw [if_pos hvalid]
    simp only [callbackCalls_append, callbackCalls_replayLoop, if_true]
    simp [callbackCalls]
  refine ⟨by rw [hcalls s, hK], ?_, ?_⟩
  · unfold GuardCondition.guardConditionSetExecutorCallback
    rw [if_pos hvalid]
  · intro hlt
    have hrun := run_replicate_trigger K GuardCondition.new rfl
      (by simpa [GuardCondition.new] using hlt)
    rw [hcalls, hrun]
    simp [GuardCondition.new]

/-- Witness of C1: the state reached by three `trigger()` calls on a new
object, then a registration of callback 7 with context 8 and handle 9. -/
theorem C1_replay_correctness_witness :
    callbackCalls
        ((run GuardCondition.new [Op.trigger, Op.trigger, Op.trigger]).1.guardConditionSetExecutorCallback
          8 7 9 true).trace =
      List.replicate 3 (7, 8, (⟨9, ExecutorEventType.WAITABLE_EVENT⟩ : ExecutorEvent)) ∧
    ((run GuardCondition.new [Op.trigger, Op.trigger, Op.trigger]).1.guardConditionSetExecutorCallback
        8 7 9 true).state.unread_count_ = 0 :=
  ⟨(C1_replay_correctness 3 (run GuardCondition.new [Op.trigger, Op.trigger, Op.trigger]).1 8 7 9
      (by decide) (by decide) (by decide) (by decide) (by decide)).1,
    (C1_replay_correctness 3 (run GuardCondition.new [Op.trigger, Op.trigger, Op.trigger]).1 8 7 9
      (by decide) (by decide) (by decide) (by decide) (by decide)).2.1⟩

/-- C2 (callback priority).  When a callback is registered, `trigger()` calls
it exactly once with the registered context and the event
`{registered handle, WAITABLE_EVENT}`, changes neither the triggered flag nor
the unread counter (nor anything else of the object), and signals no condition
variable, whatever wait handle is attached. -/
theorem C2_callback_priority (s : GuardCondition)
    (hregistered : s.executor_callback_ ≠ nullptr) :
    callbackCalls s.trigger.trace =
      [(s.executor_callback_, s.executor_context_,
        (⟨s.waitable_handle_, ExecutorEventType.WAITABLE_EVENT⟩ : ExecutorEvent))] ∧
    s.trigger.state.hasTriggered_ = s.hasTriggered_ ∧
    s.trigger.state.unread_count_ = s.unread_count_ ∧
    s.trigger.state = s ∧
    signals s.trigger.trace = [] := by
  unfold GuardCondition.trigger
  rw [if_pos hregistered]
  simp [callbackCalls, signals]

/-- Witness of C2: callback 7 registered with context 8 and handle 9, the flag
set, the wait handle (5, 6) attached. -/
theorem C2_callback_priority_witness :
    callbackCalls
        (GuardCondition.mk true 5 6 7 9 8 0).trigger.trace =
      [(7, 8, (⟨9, ExecutorEventType.WAITABLE_EVENT⟩ : ExecutorEvent))] ∧
    (GuardCondition.mk true 5 6 7 9 8 0).trigger.state.hasTriggered_ = true ∧
    (GuardCondition.mk true 5 6 7 9 8 0).trigger.state.unread_count_ = 0 ∧
    (GuardCondition.mk true 5 6 7 9 8 0).trigger.state = GuardCondition.mk true 5 6 7 9 8 0 ∧
    signals (GuardCondition.mk true 5 6 7 9 8 0).trigger.trace = [] :=
  C2_callback_priority (GuardCondition.mk true 5 6 7 9 8 0) (by decide)

/-- C3 (no event is lost across mode switches).  After any sequence of calls
on a new object in which every valid registration asks for the replay of
previous events and which holds fewer than `2 ^ 64` triggers, the number of
callback invocations made so far plus the unread counter equals the number of
`trigger()` calls made so far. -/
theorem C3_no_event_lost (ops : List Op)
    (hreplay : ∀ op ∈ ops, op.replaysWhenValid)
    (hbound : triggerCount ops < UINT64_SIZE) :
    (callbackCalls (run GuardCondition.new ops).2).length +
        (run GuardCondition.new ops).1.unread_count_ =
      triggerCount ops := by
  have h := run_balance ops GuardCondition.new hreplay (by simpa [GuardCondition.new] using hbound)
  simpa [GuardCondition.new] using h

/-- Witness of C3: two triggers while polling, a registration with replay, a
live trigger, an unregistration, one more trigger. -/
theorem C3_no_event_lost_witness :
    (callbackCalls (run GuardCondition.new
        [Op.trigger, Op.attachCondition 5 6, Op.trigger,
          Op.guardConditionSetExecutorCallback 8 7 9 true, Op.trigger, Op.getHasTriggered,
          Op.guardConditionSetExecutorCallback 8 0 9 false, Op.trigger]).2).length +
        (run GuardCondition.new
          [Op.trigger, Op.attachCondition 5 6, Op.trigger,
            Op.guardConditionSetExecutorCallback 8 7 9 true, Op.trigger, Op.getHasTriggered,
            Op.guardConditionSetExecutorCallback 8 0 9 false, Op.trigger]).1.unread_count_ =
      triggerCount
        [Op.trigger, Op.attachCondition 5 6, Op.trigger,
          Op.guardConditionSetExecutorCallback 8 7 9 true, Op.trigger, Op.getHasTriggered,
          Op.guardConditionSetExecutorCallback 8 0 9 false, Op.trigger] :=
  C3_no_event_lost _ (by decide) (by decide)

/-- C4 (no loss in polling mode, P1).  After `N` calls of `trigger()` on a new
object (no wait handle, no callback), with `1 ≤ N < 2 ^ 64`, the unread
counter is `N` and the next `getHasTriggered()` returns true. -/
theorem C4_no_loss_polling (N : Nat) (hpos : 1 ≤ N) (hbound : N < UINT64_SIZE) :
    (run GuardCondition.new (List.replicate N Op.trigger)).1.unread_count_ = N ∧
    (run GuardCondition.new (List.replicate N Op.trigger)).1.getHasTriggered.ret = true := by
  rw [run_replicate_trigger N GuardCondition.new rfl (by simpa [GuardCondition.new] using hbound)]
  refine ⟨by simp [GuardCondition.new], ?_⟩
  simp [GuardCondition.getHasTriggered]
  omega

/-- Witness of C4 with `N = 3`. -/
theorem C4_no_loss_polling_witness :
    (run GuardCondition.new (List.replicate 3 Op.trigger)).1.unread_count_ = 3 ∧
    (run GuardCondition.new (List.replicate 3 Op.trigger)).1.getHasTriggered.ret = true :=
  C4_no_loss_polling 3 (by decide) (by decide)

/-- C5 (flag read-and-reset, P2).  `getHasTriggered()` returns the value the
triggered flag has at the call and leaves the flag false; a second
`getHasTriggered()`, directly after or after any calls other than `trigger()`,
returns false. -/
theorem C5_flag_read_and_reset (s : GuardCondition) :
    s.getHasTriggered.ret = s.hasTriggered_ ∧
    s.getHasTriggered.state.hasTriggered_ = false ∧
    s.getHasTriggered.state.getHasTriggered.ret = false ∧
    ∀ ops : List Op, Op.trigger ∉ ops →
      (run s.getHasTriggered.state ops).1.getHasTriggered.ret = false := by
  refine ⟨rfl, rfl, rfl, ?_⟩
  intro ops hops
  exact run_flag_false ops _ hops rfl

/-- Witness of C5: a set flag is returned once; after an attach and a
non-consuming read the second consume returns false. -/
theorem C5_flag_read_and_reset_witness :
    (GuardCondition.mk true 0 0 0 0 0 1).getHasTriggered.ret = true ∧
    (run (GuardCondition.mk true 0 0 0 0 0 1).getHasTriggered.state
        [Op.attachCondition 5 6, Op.hasTriggered]).1.getHasTriggered.ret = false :=
  ⟨(C5_flag_read_and_reset (GuardCondition.mk true 0 0 0 0 0 1)).1,
    (C5_flag_read_and_reset (GuardCondition.mk true 0 0 0 0 0 1)).2.2.2
      [Op.attachCondition 5 6, Op.hasTriggered] (by decide)⟩

/-- C6 (a malformed or null registration is an unregister).  When at least one
of context, callback and handle is null, the call leaves the three stored
pointers null, calls no callback whatever `use_previous_events` is, and leaves
the unread counter, the triggered flag and the wait handle as they were. -/
theorem C6_null_registration_unregisters (s : GuardCondition)
    (executor_context callback waitable_handle : Ptr) (use_previous_events : Bool)
    (hnull : executor_context = nullptr ∨ callback = nullptr ∨ waitable_handle = nullptr) :
    (s.guardConditionSetExecutorCallback executor_context callback waitable_handle
        use_previous_events).state.executor_context_ = nullptr ∧
    (s.guardConditionSetExecutorCallback executor_context callback waitable_handle
        use_previous_events).state.executor_callback_ = nullptr ∧
    (s.guardConditionSetExecutorCallback executor_context callback waitable_handle
        use_previous_events).state.waitable_handle_ = nullptr ∧
    callbackCalls
        (s.guardConditionSetExecutorCallback executor_context callback waitable_handle
          use_previous_events).trace = [] ∧
    (s.guardConditionSetExecutorCallback executor_context callback waitable_handle
        use_previous_events).state.unread_count_ = s.unread_count_ ∧
    (s.guardConditionSetExecutorCallback executor_context callback waitable_handle
        use_previous_events).state.hasTriggered_ = s.hasTriggered_ ∧
    (s.guardConditionSetExecutorCallback executor_context callback waitable_handle
        use_previous_events).state.conditionMutex_ = s.conditionMutex_ ∧
    (s.guardConditionSetExecutorCallback executor_context callback waitable_handle
        use_previous_events).state.conditionVariable_ = s.conditionVariable_ := by
  unfold GuardCondition.guardConditionSetExecutorCallback
  rw [if_neg (by rcases hnull with h | h | h <;> simp [h])]
  simp [callbackCalls]

/-- Witness of C6: callback 7 registered, four unread events, replay asked for,
only the handle argument null. -/
theorem C6_null_registration_unregisters_witness :
    ((GuardCondition.mk true 5 6 7 9 8 4).guardConditionSetExecutorCallback 8 7 0
        true).state = GuardCondition.mk true 5 6 0 0 0 4 ∧
    callbackCalls
        ((GuardCondition.mk true 5 6 7 9 8 4).guardConditionSetExecutorCallback 8 7 0
          true).trace = [] :=
  ⟨by decide,
    (C6_null_registration_unregisters (GuardCondition.mk true 5 6 7 9 8 4) 8 7 0 true
      (by decide)).2.2.2.1⟩

/-- C7 (unregister restores polling semantics, P6).  From a state with a
callback registered, after an unregistering call the next `trigger()` calls no
callback, sets the triggered flag and increments the unread counter by one:
as a `uint64_t`, hence by exactly one unless the counter was `2 ^ 64 - 1`, and
by exactly one in every state a new object can reach. -/
theorem C7_unregister_restores_polling (s : GuardCondition)
    (executor_context callback waitable_handle : Ptr) (use_previous_events : Bool)
    (hregistered : s.executor_callback_ ≠ nullptr)
    (hnull : executor_context = nullptr ∨ callback = nullptr ∨ waitable_handle = nullptr) :
    callbackCalls
        (s.guardConditionSetExecutorCallback executor_context callback waitable_handle
          use_previous_events).state.trigger.trace = [] ∧
    (s.guardConditionSetExecutorCallback executor_context callback waitable_handle
        use_previous_events).state.trigger.state.hasTriggered_ = true ∧
    (s.guardConditionSetExecutorCallback executor_context callback waitable_handle
        use_previous_events).state.trigger.state.unread_count_ =
      (s.unread_count_ + 1) % UINT64_SIZE ∧
    (s.unread_count_ + 1 < UINT64_SIZE →
      (s.guardConditionSetExecutorCallback executor_context callback waitable_handle
          use_previous_events).state.trigger.state.unread_count_ = s.unread_count_ + 1) ∧
    ((∃ ops : List Op, (run GuardCondition.new ops).1 = s) →
      (s.guardConditionSetExecutorCallback executor_context callback waitable_handle
          use_previous_events).state.trigger.state.unread_count_ = s.unread_count_ + 1) := by
  have hstate :=
    unregister_state s executor_context callback waitable_handle use_previous_events hnull
  have hpolling :
      (s.guardConditionSetExecutorCallback executor_context callback waitable_handle
        use_previous_events).state.executor_callback_ = nullptr := by
    rw [hstate]
  have hcount :
      (s.guardConditionSetExecutorCallback executor_context callback waitable_handle
        use_previous_events).state.trigger.state.unread_count_ =
      (s.unread_count_ + 1) % UINT64_SIZE := by
    rw [trigger_state_of_polling _ hpolling, hstate]
  refine ⟨trigger_calls_of_polling _ hpolling, ?_, hcount, ?_, ?_⟩
  · rw [trigger_state_of_polling _ hpolling]
  · intro hlt
    rw [hcount, Nat.mod_eq_of_lt hlt]
  · rintro ⟨ops, hops⟩
    have hzero : s.unread_count_ = 0 := by
      have h := run_registered_unread ops GuardCondition.new (fun h => absurd rfl h)
      rw [hops] at h
      exact h hregistered
    rw [hcount, hzero]
    rfl

/-- Witness of C7: the state reached by a trigger and a registration with
replay; the callback argument of the unregistering call is null. -/
theorem C7_unregister_restores_polling_witness :
    callbackCalls
        ((GuardCondition.mk true 0 0 7 9 8 0).guardConditionSetExecutorCallback 8 0 9
          true).state.trigger.trace = [] ∧
    ((GuardCondition.mk true 0 0 7 9 8 0).guardConditionSetExecutorCallback 8 0 9
        true).state.trigger.state.hasTriggered_ = true ∧
    ((GuardCondition.mk true 0 0 7 9 8 0).guardConditionSetExecutorCallback 8 0 9
        true).state.trigger.state.unread_count_ = 0 + 1 :=
  ⟨(C7_unregister_restores_polling (GuardCondition.mk true 0 0 7 9 8 0) 8 0 9 true
      (by decide) (by decide)).1,
    (C7_unregister_restores_polling (GuardCondition.mk true 0 0 7 9 8 0) 8 0 9 true
      (by decide) (by decide)).2.1,
    (C7_unregister_restores_polling (GuardCondition.mk true 0 0 7 9 8 0) 8 0 9 true
      (by decide) (by decide)).2.2.2.2
      ⟨[Op.trigger, Op.guardConditionSetExecutorCallback 8 7 9 false], by decide⟩⟩

/-- C8, as stated, fails: three triggers on a new object give a polling-mode
state with unread counter 3; a valid registration followed by an unregistering
call gives back the same flag, wait handle and (empty) registration, but the
unread counter is 0, not 3. -/
theorem C8_register_unregister_counterexample :
    (run GuardCondition.new [Op.trigger, Op.trigger, Op.trigger]).1 =
      GuardCondition.mk true 0 0 0 0 0 3 ∧
    (((GuardCondition.mk true 0 0 0 0 0 3).guardConditionSetExecutorCallback 8 7 9
        false).state.guardConditionSetExecutorCallback 0 0 0 false).state =
      GuardCondition.mk true 0 0 0 0 0 0 ∧
    (((GuardCondition.mk true 0 0 0 0 0 3).guardConditionSetExecutorCallback 8 7 9
        true).state.guardConditionSetExecutorCallback 0 0 0 false).state =
      GuardCondition.mk true 0 0 0 0 0 0 ∧
    ¬ ((((GuardCondition.mk true 0 0 0 0 0 3).guardConditionSetExecutorCallback 8 7 9
        true).state.guardConditionSetExecutorCallback 0 0 0 false).state.unread_count_ =
      (GuardCondition.mk true 0 0 0 0 0 3).unread_count_) := by
  decide

/-- C8 (amended).  From a state with no callback registered, a valid
registration (either value of `use_previous_events`) followed by an
unregistering call yields a state with the triggered flag and the wait handle
of the starting state, no registration (all three stored pointers null) and
unread counter 0; so it equals a starting state that stores no registration
exactly when that state had unread counter 0. -/
theorem C8_register_unregister_amended (s : GuardCondition)
    (executor_context callback waitable_handle : Ptr) (use_previous_events : Bool)
    (context2 callback2 handle2 : Ptr) (use_previous_events2 : Bool)
    (hpolling : s.executor_callback_ = nullptr)
    (hcontext : executor_context ≠ nullptr) (hcallback : callback ≠ nullptr)
    (hhandle : waitable_handle ≠ nullptr)
    (hnull : context2 = nullptr ∨ callback2 = nullptr ∨ handle2 = nullptr) :
    ((s.guardConditionSetExecutorCallback executor_context callback waitable_handle
        use_previous_events).state.guardConditionSetExecutorCallback context2 callback2 handle2
        use_previous_events2).state =
      { s with
        executor_context_ := nullptr
        executor_callback_ := s.executor_callback_
        waitable_handle_ := nullptr
        unread_count_ := 0 } ∧
    (s.executor_context_ = nullptr → s.waitable_handle_ = nullptr →
      (((s.guardConditionSetExecutorCallback executor_context callback waitable_handle
          use_previous_events).state.guardConditionSetExecutorCallback context2 callback2 handle2
          use_previous_events2).state = s ↔ s.unread_count_ = 0)) := by
  rw [unregister_state _ context2 callback2 handle2 use_previous_events2 hnull,
    register_state s executor_context callback waitable_handle use_previous_events hcontext
      hcallback hhandle]
  refine ⟨by simp [hpolling], ?_⟩
  intro hc hh
  cases s
  simp only [GuardCondition.mk.injEq] at *
  subst hpolling hc hh
  simp only [true_and]
  exact eq_comm

/-- Witness of C8 (amended): the state reached by three triggers, with the
wait handle (5, 6) attached. -/
theorem C8_register_unregister_amended_witness :
    (((GuardCondition.mk true 5 6 0 0 0 3).guardConditionSetExecutorCallback 8 7 9
        true).state.guardConditionSetExecutorCallback 8 0 9 true).state =
      GuardCondition.mk true 5 6 0 0 0 0 :=
  (C8_register_unregister_amended (GuardCondition.mk true 5 6 0 0 0 3) 8 7 9 true 8 0 9 true
    (by decide) (by decide) (by decide) (by decide) (by decide)).1

/-- C9 (registration without replay).  With context, callback and handle all
non-null and `use_previous_events = false`, the call stores the three values,
calls no callback, sets the unread counter to 0 and leaves the triggered flag
and the wait handle as they were. -/
theorem C9_registration_without_replay (s : GuardCondition)
    (executor_context callback waitable_handle : Ptr)
    (hcontext : executor_context ≠ nullptr) (hcallback : callback ≠ nullptr)
    (hhandle : waitable_handle ≠ nullptr) :
    (s.guardConditionSetExecutorCallback executor_context callback waitable_handle
        false).state.executor_context_ = executor_context ∧
    (s.guardConditionSetExecutorCallback executor_context callback waitable_handle
        false).state.executor_callback_ = callback ∧
    (s.guardConditionSetExecutorCallback executor_context callback waitable_handle
        false).state.waitable_handle_ = waitable_handle ∧
    callbackCalls
        (s.guardConditionSetExecutorCallback executor_context callback waitable_handle
          false).trace = [] ∧
    (s.guardConditionSetExecutorCallback executor_context callback waitable_handle
        false).state.unread_count_ = 0 ∧
    (s.guardConditionSetExecutorCallback executor_context callback waitable_handle
        false).state.hasTriggered_ = s.hasTriggered_ ∧
    (s.guardConditionSetExecutorCallback executor_context callback waitable_handle
        false).state.conditionMutex_ = s.conditionMutex_ ∧
    (s.guardConditionSetExecutorCallback executor_context callback waitable_handle
        false).state.conditionVariable_ = s.conditionVariable_ := by
  unfold GuardCondition.guardConditionSetExecutorCallback
  rw [if_pos ⟨hcontext, hhandle, hcallback⟩]
  simp [callbackCalls]

/-- Witness of C9: four unread events, the flag set, the wait handle (5, 6)
attached. -/
theorem C9_registration_without_replay_witness :
    ((GuardCondition.mk true 5 6 0 0 0 4).guardConditionSetExecutorCallback 8 7 9
        false).state = GuardCondition.mk true 5 6 7 9 8 0 ∧
    callbackCalls
        ((GuardCondition.mk true 5 6 0 0 0 4).guardConditionSetExecutorCallback 8 7 9
          false).trace = [] :=
  ⟨by decide,
    (C9_registration_without_replay (GuardCondition.mk true 5 6 0 0 0 4) 8 7 9
      (by decide) (by decide) (by decide)).2.2.2.1⟩

/-- C10 (polling-mode trigger effect).  With no callback registered,
`trigger()` sets the triggered flag, increments the unread counter by one
modulo `2 ^ 64`, calls no callback, leaves the wait handle and the registration
as they were, and calls `notify_one` exactly once, on the attached condition
variable, when a wait handle is attached (`conditionMutex_` non-null, the test
the source makes) and signals nothing when none is. -/
theorem C10_polling_trigger_effect (s : GuardCondition)
    (hpolling : s.executor_callback_ = nullptr) :
    s.trigger.state.hasTriggered_ = true ∧
    s.trigger.state.unread_count_ = (s.unread_count_ + 1) % UINT64_SIZE ∧
    callbackCalls s.trigger.trace = [] ∧
    s.trigger.state.conditionMutex_ = s.conditionMutex_ ∧
    s.trigger.state.conditionVariable_ = s.conditionVariable_ ∧
    s.trigger.state.executor_callback_ = s.executor_callback_ ∧
    s.trigger.state.executor_context_ = s.executor_context_ ∧
    s.trigger.state.waitable_handle_ = s.waitable_handle_ ∧
    (s.conditionMutex_ ≠ nullptr → signals s.trigger.trace = [s.conditionVariable_]) ∧
    (s.conditionMutex_ = nullptr → signals s.trigger.trace = []) := by
  rw [trigger_state_of_polling s hpolling]
  refine ⟨rfl, rfl, trigger_calls_of_polling s hpolling, rfl, rfl, rfl, rfl, rfl, ?_, ?_⟩
  · intro hattached
    unfold GuardCondition.trigger
    rw [if_neg (by simp [hpolling]), if_pos hattached]
    rfl
  · intro hdetached
    unfold GuardCondition.trigger
    rw [if_neg (by simp [hpolling]), if_neg (by simp [hdetached])]
    rfl

/-- Witness of C10: the counter at `2 ^ 64 - 1` wraps to 0, and the attached
condition variable 6 is signalled once. -/
theorem C10_polling_trigger_effect_witness :
    (GuardCondition.mk false 5 6 0 0 0 (2 ^ 64 - 1)).trigger.state.hasTriggered_ = true ∧
    (GuardCondition.mk false 5 6 0 0 0 (2 ^ 64 - 1)).trigger.state.unread_count_ = 0 ∧
    signals (GuardCondition.mk false 5 6 0 0 0 (2 ^ 64 - 1)).trigger.trace = [6] ∧
    signals (GuardCondition.mk false 0 6 0 0 0 1).trigger.trace = [] :=
  ⟨(C10_polling_trigger_effect (GuardCondition.mk false 5 6 0 0 0 (2 ^ 64 - 1)) (by decide)).1,
    (C10_polling_trigger_effect (GuardCondition.mk false 5 6 0 0 0 (2 ^ 64 - 1)) (by decide)).2.1,
    (C10_polling_trigger_effect (GuardCondition.mk false 5 6 0 0 0 (2 ^ 64 - 1))
      (by decide)).2.2.2.2.2.2.2.2.1 (by decide),
    (C10_polling_trigger_effect (GuardCondition.mk false 0 6 0 0 0 1)
      (by decide)).2.2.2.2.2.2.2.2.2 (by decide)⟩

/-- Any number of `hasTriggered()` calls in a row leaves the object as it was
and performs no effect. -/
theorem run_replicate_hasTriggered (n : Nat) (s : GuardCondition) :
    run s (List.replicate n Op.hasTriggered) = (s, []) := by
  induction n with
  | zero => rfl
  | succ n ih =>
    simp only [List.replicate_succ, run, step, GuardCondition.hasTriggered, ih]
    rfl

/-- C11 (only consume clears the flag).  When the triggered flag is true, every
call other than `getHasTriggered()` (`trigger`, `attachCondition`,
`detachCondition`, `hasTriggered`, `guardConditionSetExecutorCallback` with any
arguments) leaves it true. -/
theorem C11_only_consume_clears_flag (s : GuardCondition) (op : Op)
    (hflag : s.hasTriggered_ = true) (hop : op ≠ Op.getHasTriggered) :
    (step s op).1.hasTriggered_ = true := by
  cases op with
  | trigger =>
    simp only [step, GuardCondition.trigger]
    split
    · exact hflag
    · split <;> rfl
  | attachCondition m cv => simpa [step, GuardCondition.attachCondition] using hflag
  | detachCondition => simpa [step, GuardCondition.detachCondition] using hflag
  | hasTriggered => simpa [step, GuardCondition.hasTriggered] using hflag
  | getHasTriggered => exact absurd rfl hop
  | guardConditionSetExecutorCallback ctx cb h upe =>
    simp only [step, GuardCondition.guardConditionSetExecutorCallback]
    split <;> simpa using hflag

/-- Witness of C11: a trigger in callback mode, and a valid registration with
replay, on a state whose flag is set. -/
theorem C11_only_consume_clears_flag_witness :
    (step (GuardCondition.mk true 5 6 7 9 8 0) Op.trigger).1.hasTriggered_ = true ∧
    (step (GuardCondition.mk true 5 6 0 0 0 2)
        (Op.guardConditionSetExecutorCallback 8 7 9 true)).1.hasTriggered_ = true :=
  ⟨C11_only_consume_clears_flag (GuardCondition.mk true 5 6 7 9 8 0) Op.trigger
      (by decide) (by decide),
    C11_only_consume_clears_flag (GuardCondition.mk true 5 6 0 0 0 2)
      (Op.guardConditionSetExecutorCallback 8 7 9 true) (by decide) (by decide)⟩

/-- C12 (`hasTriggered()` is a non-consuming read).  It returns the current
triggered flag and leaves the whole object unchanged, with no effect; so after
any number of `hasTriggered()` calls a `getHasTriggered()` returns what it
would have returned before them, and a registration replays the same calls. -/
theorem C12_hasTriggered_non_consuming (s : GuardCondition) :
    s.hasTriggered.ret = s.hasTriggered_ ∧
    s.hasTriggered.state = s ∧
    s.hasTriggered.trace = [] ∧
    ∀ n : Nat,
      (run s (List.replicate n Op.hasTriggered)).1 = s ∧
      (run s (List.replicate n Op.hasTriggered)).1.getHasTriggered.ret =
        s.getHasTriggered.ret ∧
      ∀ (executor_context callback waitable_handle : Ptr) (use_previous_events : Bool),
        callbackCalls
            ((run s (List.replicate n Op.hasTriggered)).1.guardConditionSetExecutorCallback
              executor_context callback waitable_handle use_previous_events).trace =
          callbackCalls
            (s.guardConditionSetExecutorCallback executor_context callback waitable_handle
              use_previous_events).trace := by
  refine ⟨rfl, rfl, rfl, ?_⟩
  intro n
  rw [run_replicate_hasTriggered]
  exact ⟨rfl, rfl, fun _ _ _ _ => rfl⟩

/-- C13 (attach/detach select the trigger branch).  `attachCondition(m, cv)`
makes `(m, cv)` the single wait handle, replacing any earlier one, and
`detachCondition()` clears it; neither changes the triggered flag, the unread
counter or the registration.  With no callback registered, a `trigger()` after
`detachCondition()` signals no condition variable and writes flag and counter
only, and a `trigger()` after `attachCondition(m, cv)` of a pair of valid
(non-null) pointers signals exactly `cv`. -/
theorem C13_attach_detach_select_branch (s : GuardCondition) (m cv : Ptr) :
    (s.attachCondition m cv).state = { s with conditionMutex_ := m, conditionVariable_ := cv } ∧
    s.detachCondition.state =
      { s with conditionMutex_ := nullptr, conditionVariable_ := nullptr } ∧
    (s.executor_callback_ = nullptr →
      signals s.detachCondition.state.trigger.trace = [] ∧
      s.detachCondition.state.trigger.state =
        { s with
          conditionMutex_ := nullptr
          conditionVariable_ := nullptr
          hasTriggered_ := true
          unread_count_ := (s.unread_count_ + 1) % UINT64_SIZE }) ∧
    (s.executor_callback_ = nullptr → m ≠ nullptr → cv ≠ nullptr →
      signals (s.attachCondition m cv).state.trigger.trace = [cv]) := by
  refine ⟨rfl, rfl, ?_, ?_⟩
  · intro hpolling
    refine ⟨?_, ?_⟩
    · simp [GuardCondition.trigger, GuardCondition.detachCondition, hpolling, signals]
    · rw [trigger_state_of_polling _ (by simpa [GuardCondition.detachCondition] using hpolling)]
      rfl
  · intro hpolling hm _
    simp [GuardCondition.trigger, GuardCondition.attachCondition, hpolling, hm, signals]

/-- Witness of C13: the wait handle (5, 6) replaces (3, 4), and the next
trigger signals condition variable 6 only; after a detach it signals none. -/
theorem C13_attach_detach_select_branch_witness :
    ((GuardCondition.mk false 3 4 0 0 0 2).attachCondition 5 6).state =
      GuardCondition.mk false 5 6 0 0 0 2 ∧
    signals (GuardCondition.mk false 3 4 0 0 0 2).detachCondition.state.trigger.trace = [] ∧
    signals ((GuardCondition.mk false 3 4 0 0 0 2).attachCondition 5 6).state.trigger.trace =
      [6] :=
  ⟨(C13_attach_detach_select_branch (GuardCondition.mk false 3 4 0 0 0 2) 5 6).1,
    ((C13_attach_detach_select_branch (GuardCondition.mk false 3 4 0 0 0 2) 5 6).2.2.1
      (by decide)).1,
    (C13_attach_detach_select_branch (GuardCondition.mk false 3 4 0 0 0 2) 5 6).2.2.2
      (by decide) (by decide) (by decide)⟩

/-- The replay loop performs nothing but calls of the stored callback. -/
theorem mem_replayLoop (s : GuardCondition) (i : Nat) (e : Effect)
    (he : e ∈ GuardCondition.replayLoop s i) :
    e = Effect.call s.executor_callback_ s.executor_context_
      ⟨s.waitable_handle_, ExecutorEventType.WAITABLE_EVENT⟩ := by
  generalize h : s.unread_count_ - i = n at he
  induction n generalizing i with
  | zero =>
    rw [GuardCondition.replayLoop, if_neg (by omega)] at he
    exact absurd he (List.not_mem_nil _)
  | succ n ih =>
    rw [GuardCondition.replayLoop, if_pos (by omega)] at he
    rcases List.mem_cons.mp he with h1 | h1
    · exact h1
    · exact ih (i + 1) h1 (by omega)

/-- The replay loop acquires and releases no mutex. -/
theorem acquiresWhileHolding_replayLoop (a b : Mutex) (held : List Mutex) (s : GuardCondition)
    (i : Nat) (rest : List Effect) :
    acquiresWhileHolding a b held (GuardCondition.replayLoop s i ++ rest) =
      acquiresWhileHolding a b held rest := by
  generalize h : s.unread_count_ - i = n
  induction n generalizing i with
  | zero =>
    rw [GuardCondition.replayLoop, if_neg (by omega)]
    rfl
  | succ n ih =>
    rw [GuardCondition.replayLoop, if_pos (by omega)]
    simp only [List.cons_append, acquiresWhileHolding]
    exact ih (i + 1) (by omega)

/-- C15 (order of effects in the attached branch of `trigger()`).  With no
callback registered and a wait handle `(m, cv)` attached, the effects of one
`trigger()` on the external pair and the flag are exactly: acquire `m`, write
the flag true, release `m`, `notify_one` on `cv` (so the flag is written while
`m` is held and the signal comes after the release); and no other call, and no
other branch of `trigger()`, acquires an external mutex. -/
theorem C15_attached_trigger_order (s : GuardCondition)
    (hpolling : s.executor_callback_ = nullptr) (hattached : s.conditionMutex_ ≠ nullptr) :
    s.trigger.trace.filter Effect.onWaitHandle =
      [ Effect.lock (Mutex.external s.conditionMutex_),
        Effect.store_hasTriggered true,
        Effect.unlock (Mutex.external s.conditionMutex_),
        Effect.notify_one s.conditionVariable_ ] ∧
    s.trigger.trace =
      [ Effect.lock Mutex.executor_callback_mutex_,
        Effect.lock Mutex.internalMutex_,
        Effect.lock (Mutex.external s.conditionMutex_),
        Effect.store_hasTriggered true,
        Effect.unlock (Mutex.external s.conditionMutex_),
        Effect.notify_one s.conditionVariable_,
        Effect.unlock Mutex.internalMutex_,
        Effect.unlock Mutex.executor_callback_mutex_ ] ∧
    ∀ (t : GuardCondition) (op : Op) (m : Ptr),
      Effect.lock (Mutex.external m) ∈ (step t op).2 →
        op = Op.trigger ∧ t.executor_callback_ = nullptr ∧ t.conditionMutex_ ≠ nullptr ∧
          m = t.conditionMutex_ := by
  have htrace : s.trigger.trace =
      [ Effect.lock Mutex.executor_callback_mutex_,
        Effect.lock Mutex.internalMutex_,
        Effect.lock (Mutex.external s.conditionMutex_),
        Effect.store_hasTriggered true,
        Effect.unlock (Mutex.external s.conditionMutex_),
        Effect.notify_one s.conditionVariable_,
        Effect.unlock Mutex.internalMutex_,
        Effect.unlock Mutex.executor_callback_mutex_ ] := by
    unfold GuardCondition.trigger
    rw [if_neg (by simp [hpolling]), if_pos hattached]
  refine ⟨?_, htrace, ?_⟩
  · rw [htrace]
    simp [List.filter, Effect.onWaitHandle]
  · intro t op m hmem
    cases op with
    | trigger =>
      by_cases hcb : t.executor_callback_ = nullptr
      · by_cases hm : t.conditionMutex_ = nullptr
        · simp [step, GuardCondition.trigger, hcb, hm] at hmem
        · simp [step, GuardCondition.trigger, hcb, hm] at hmem
          exact ⟨rfl, hcb, hm, hmem⟩
      · simp [step, GuardCondition.trigger, hcb] at hmem
    | attachCondition m2 cv2 => simp [step, GuardCondition.attachCondition] at hmem
    | detachCondition => simp [step, GuardCondition.detachCondition] at hmem
    | hasTriggered => simp [step, GuardCondition.hasTriggered] at hmem
    | getHasTriggered => simp [step, GuardCondition.getHasTriggered] at hmem
    | guardConditionSetExecutorCallback ctx cb h upe =>
      exfalso
      simp only [step, GuardCondition.guardConditionSetExecutorCallback] at hmem
      split at hmem
      · simp only [List.mem_append, List.mem_singleton] at hmem
        rcases hmem with (h1 | h1) | h1
        · cases h1
        · split at h1
          · cases mem_replayLoop _ _ _ h1
          · exact absurd h1 (List.not_mem_nil _)
        · cases h1
      · simp at hmem

/-- Witness of C15: the wait handle (5, 6) attached, no callback. -/
theorem C15_attached_trigger_order_witness :
    (GuardCondition.mk false 5 6 0 0 0 2).trigger.trace.filter Effect.onWaitHandle =
      [ Effect.lock (Mutex.external 5),
        Effect.store_hasTriggered true,
        Effect.unlock (Mutex.external 5),
        Effect.notify_one 6 ] :=
  (C15_attached_trigger_order (GuardCondition.mk false 5 6 0 0 0 2) (by decide) (by decide)).1

/-- One call keeps the property "the stored context, callback and handle are
all non-null or all null". -/
theorem step_triple (s : GuardCondition) (op : Op)
    (hinv : (s.executor_context_ ≠ nullptr ∧ s.executor_callback_ ≠ nullptr ∧
        s.waitable_handle_ ≠ nullptr) ∨
      (s.executor_context_ = nullptr ∧ s.executor_callback_ = nullptr ∧
        s.waitable_handle_ = nullptr)) :
    ((step s op).1.executor_context_ ≠ nullptr ∧ (step s op).1.executor_callback_ ≠ nullptr ∧
        (step s op).1.waitable_handle_ ≠ nullptr) ∨
      ((step s op).1.executor_context_ = nullptr ∧ (step s op).1.executor_callback_ = nullptr ∧
        (step s op).1.waitable_handle_ = nullptr) := by
  cases op with
  | trigger =>
    simp only [step, GuardCondition.trigger]
    split
    · exact hinv
    · split <;> exact hinv
  | attachCondition m cv => exact hinv
  | detachCondition => exact hinv
  | hasTriggered => exact hinv
  | getHasTriggered => exact hinv
  | guardConditionSetExecutorCallback ctx cb h upe =>
    simp only [step, GuardCondition.guardConditionSetExecutorCallback]
    split
    · rename_i hvalid
      exact Or.inl ⟨hvalid.1, hvalid.2.2, hvalid.2.1⟩
    · exact Or.inr ⟨rfl, rfl, rfl⟩

/-- A sequence of calls keeps the property "the stored context, callback and
handle are all non-null or all null". -/
theorem run_triple (ops : List Op) (s : GuardCondition)
    (hinv : (s.executor_context_ ≠ nullptr ∧ s.executor_callback_ ≠ nullptr ∧
        s.waitable_handle_ ≠ nullptr) ∨
      (s.executor_context_ = nullptr ∧ s.executor_callback_ = nullptr ∧
        s.waitable_handle_ = nullptr)) :
    ((run s ops).1.executor_context_ ≠ nullptr ∧ (run s ops).1.executor_callback_ ≠ nullptr ∧
        (run s ops).1.waitable_handle_ ≠ nullptr) ∨
      ((run s ops).1.executor_context_ = nullptr ∧ (run s ops).1.executor_callback_ = nullptr ∧
        (run s ops).1.waitable_handle_ = nullptr) := by
  induction ops generalizing s with
  | nil => exact hinv
  | cons op ops ih =>
    simp only [run]
    exact ih _ (step_triple s op hinv)

/-- C16, as stated, fails: `trigger()` on a new object (no callback) acquires
`internalMutex_` while it still holds `executor_callback_mutex_`. -/
theorem C16_no_nested_locks_counterexample :
    GuardCondition.new.trigger.trace =
      [ Effect.lock Mutex.executor_callback_mutex_,
        Effect.lock Mutex.internalMutex_,
        Effect.store_hasTriggered true,
        Effect.unlock Mutex.internalMutex_,
        Effect.unlock Mutex.executor_callback_mutex_ ] ∧
    acquiresWhileHolding Mutex.internalMutex_ Mutex.executor_callback_mutex_ []
      GuardCondition.new.trigger.trace = true := by
  decide

/-- C16 (amended).  In no call is `executor_callback_mutex_` acquired while
`internalMutex_` is held; `internalMutex_` is acquired while
`executor_callback_mutex_` is held in exactly one place, `trigger()` with no
callback registered, and in no other call. -/
theorem C16_no_nested_locks_amended (s : GuardCondition) (op : Op) :
    acquiresWhileHolding Mutex.executor_callback_mutex_ Mutex.internalMutex_ []
      (step s op).2 = false ∧
    (acquiresWhileHolding Mutex.internalMutex_ Mutex.executor_callback_mutex_ []
        (step s op).2 = true ↔
      op = Op.trigger ∧ s.executor_callback_ = nullptr) := by
  cases op with
  | trigger =>
    by_cases hcb : s.executor_callback_ = nullptr
    · by_cases hm : s.conditionMutex_ = nullptr
      · simp [step, GuardCondition.trigger, hcb, hm, acquiresWhileHolding]
      · simp [step, GuardCondition.trigger, hcb, hm, acquiresWhileHolding]
    · simp [step, GuardCondition.trigger, hcb, acquiresWhileHolding]
  | attachCondition m cv =>
    simp [step, GuardCondition.attachCondition, acquiresWhileHolding]
  | detachCondition => simp [step, GuardCondition.detachCondition, acquiresWhileHolding]
  | hasTriggered => simp [step, GuardCondition.hasTriggered, acquiresWhileHolding]
  | getHasTriggered => simp [step, GuardCondition.getHasTriggered, acquiresWhileHolding]
  | guardConditionSetExecutorCallback ctx cb h upe =>
    simp only [step, GuardCondition.guardConditionSetExecutorCallback]
    split
    · cases upe <;>
        simp [acquiresWhileHolding, acquiresWhileHolding_replayLoop]
    · simp [acquiresWhileHolding]

/-- C17 (in callback mode the unread counter is zero).  In every state reached
from a new object by a sequence of calls, a registered callback implies an
unread counter of 0; so a further registration with `use_previous_events =
true` replays nothing. -/
theorem C17_callback_mode_unread_zero (ops : List Op)
    (hregistered : (run GuardCondition.new ops).1.executor_callback_ ≠ nullptr) :
    (run GuardCondition.new ops).1.unread_count_ = 0 ∧
    ∀ executor_context callback waitable_handle : Ptr,
      callbackCalls
          ((run GuardCondition.new ops).1.guardConditionSetExecutorCallback executor_context
            callback waitable_handle true).trace = [] := by
  have hzero : (run GuardCondition.new ops).1.unread_count_ = 0 :=
    run_registered_unread ops GuardCondition.new (fun h => absurd rfl h) hregistered
  refine ⟨hzero, ?_⟩
  intro ctx cb h
  unfold GuardCondition.guardConditionSetExecutorCallback
  split
  · simp only [callbackCalls_append, callbackCalls_replayLoop, if_true]
    simp [callbackCalls, hzero]
  · rfl

/-- Witness of C17: two triggers, a registration with replay, a live trigger. -/
theorem C17_callback_mode_unread_zero_witness :
    (run GuardCondition.new
        [Op.trigger, Op.trigger, Op.guardConditionSetExecutorCallback 8 7 9 true,
          Op.trigger]).1.unread_count_ = 0 ∧
    callbackCalls
        ((run GuardCondition.new
          [Op.trigger, Op.trigger, Op.guardConditionSetExecutorCallback 8 7 9 true,
            Op.trigger]).1.guardConditionSetExecutorCallback 3 4 5 true).trace = [] :=
  ⟨(C17_callback_mode_unread_zero
      [Op.trigger, Op.trigger, Op.guardConditionSetExecutorCallback 8 7 9 true, Op.trigger]
      (by decide)).1,
    (C17_callback_mode_unread_zero
      [Op.trigger, Op.trigger, Op.guardConditionSetExecutorCallback 8 7 9 true, Op.trigger]
      (by decide)).2 3 4 5⟩

/-- C18 (the registration triple is all-or-nothing).  In every state reached
from a new object by a sequence of calls with arbitrary arguments, the stored
context, callback and handle are all non-null or all null; hence every call
that `trigger()` dispatches there has a non-null function, context and
handle. -/
theorem C18_registration_all_or_nothing (ops : List Op) :
    (((run GuardCondition.new ops).1.executor_context_ ≠ nullptr ∧
        (run GuardCondition.new ops).1.executor_callback_ ≠ nullptr ∧
        (run GuardCondition.new ops).1.waitable_handle_ ≠ nullptr) ∨
      ((run GuardCondition.new ops).1.executor_context_ = nullptr ∧
        (run GuardCondition.new ops).1.executor_callback_ = nullptr ∧
        (run GuardCondition.new ops).1.waitable_handle_ = nullptr)) ∧
    ∀ c ∈ callbackCalls (run GuardCondition.new ops).1.trigger.trace,
      c.1 ≠ nullptr ∧ c.2.1 ≠ nullptr ∧ c.2.2.entity ≠ nullptr := by
  have hinv := run_triple ops GuardCondition.new (Or.inr ⟨rfl, rfl, rfl⟩)
  refine ⟨hinv, ?_⟩
  intro c hc
  by_cases hcb : (run GuardCondition.new ops).1.executor_callback_ = nullptr
  · rw [trigger_calls_of_polling _ hcb] at hc
    exact absurd hc (List.not_mem_nil _)
  · rcases hinv with hall | hnone
    · simp only [GuardCondition.trigger, if_pos hcb, callbackCalls, List.mem_singleton] at hc
      subst hc
      exact ⟨hall.2.1, hall.1, hall.2.2⟩
    · exact absurd hnone.2.1 hcb

/-- Witness of C18: after a malformed registration, a valid one and an attach,
the call dispatched by a trigger carries callback 7, context 8 and handle 9. -/
theorem C18_registration_all_or_nothing_witness :
    (run GuardCondition.new
        [Op.guardConditionSetExecutorCallback 8 0 9 true,
          Op.guardConditionSetExecutorCallback 8 7 9 false, Op.attachCondition 5 6]).1 =
      GuardCondition.mk false 5 6 7 9 8 0 ∧
    ((7 : Ptr) ≠ nullptr ∧ (8 : Ptr) ≠ nullptr ∧ (9 : Ptr) ≠ nullptr) :=
  ⟨by decide,
    (C18_registration_all_or_nothing
        [Op.guardConditionSetExecutorCallback 8 0 9 true,
          Op.guardConditionSetExecutorCallback 8 7 9 false, Op.attachCondition 5 6]).2
      (7, 8, ⟨9, ExecutorEventType.WAITABLE_EVENT⟩) (by decide)⟩

/-- The trace of `trigger()` with no callback registered and a wait handle
attached. -/
theorem trigger_trace_attached (s : GuardCondition)
    (hpolling : s.executor_callback_ = nullptr) (hattached : s.conditionMutex_ ≠ nullptr) :
    s.trigger.trace =
      [ Effect.lock Mutex.executor_callback_mutex_,
        Effect.lock Mutex.internalMutex_,
        Effect.lock (Mutex.external s.conditionMutex_),
        Effect.store_hasTriggered true,
        Effect.unlock (Mutex.external s.conditionMutex_),
        Effect.notify_one s.conditionVariable_,
        Effect.unlock Mutex.internalMutex_,
        Effect.unlock Mutex.executor_callback_mutex_ ] := by
  unfold GuardCondition.trigger
  rw [if_neg (by simp [hpolling]), if_pos hattached]

/-- The start of the wake-up scenario, spelled out. -/
theorem waitScenario_attached (s : GuardCondition)
    (hpolling : s.executor_callback_ = nullptr) (hattached : s.conditionMutex_ ≠ nullptr) :
    waitScenario s =
      { flag := s.hasTriggered_
        owner := none
        producer :=
          [ Action.internal, Action.internal, Action.acquire, Action.setFlag true,
            Action.release, Action.notify, Action.internal, Action.internal ]
        waiter := WaiterPc.start } := by
  unfold waitScenario
  rw [trigger_trace_attached s hpolling hattached]
  simp [Effect.toAction]

/-- What a successful exploration guarantees of every interleaving: it is
shorter than the fuel, a blocked waiter has its signal ahead, and when no
thread can step any more the run is over as it should be. -/
theorem explore_sound (fuel : Nat) (c : Config) (hexplore : explore fuel c = true)
    (sched : List Thread) (c' : Config) (hexec : exec c sched = some c') :
    sched.length < fuel ∧ signalAhead c' = true ∧ (quiescent c' → wokenTriggered c' = true) := by
  induction fuel generalizing c sched with
  | zero => simp [explore] at hexplore
  | succ fuel ih =>
    simp only [explore, Bool.and_eq_true] at hexplore
    obtain ⟨hahead, hrest⟩ := hexplore
    cases sched with
    | nil =>
      simp only [exec, Option.some.injEq] at hexec
      subst hexec
      refine ⟨Nat.succ_pos _, hahead, ?_⟩
      intro hq
      rw [hq.1, hq.2] at hrest
      exact hrest
    | cons t ts =>
      have hnext : ∃ c₁, stepThread c t = some c₁ ∧ exec c₁ ts = some c' := by
        simp only [exec] at hexec
        cases hstep : stepThread c t with
        | none => simp [hstep] at hexec
        | some c₁ => exact ⟨c₁, rfl, by simpa [hstep] using hexec⟩
      obtain ⟨c₁, hstep, hexec₁⟩ := hnext
      have hexplore₁ : explore fuel c₁ = true := by
        cases t with
        | producer =>
          simp only [stepThread] at hstep
          rw [hstep] at hrest
          cases hw : stepWaiter c with
          | none => simpa [hw] using hrest
          | some c₂ =>
            rw [hw] at hrest
            simp only [Bool.and_eq_true] at hrest
            exact hrest.1
        | waiter =>
          simp only [stepThread] at hstep
          rw [hstep] at hrest
          cases hp : stepProducer c with
          | none => simpa [hp] using hrest
          | some c₂ =>
            rw [hp] at hrest
            simp only [Bool.and_eq_true] at hrest
            exact hrest.2
      obtain ⟨hlen, hrest'⟩ := ih c₁ hexplore₁ ts hexec₁
      exact ⟨by simpa using Nat.succ_lt_succ hlen, hrest'⟩

/-- Every interleaving of the attached branch of `trigger()` with the waiter
passes the exploration, whatever the flag is at the start. -/
theorem explore_attached (flag : Bool) :
    explore 15
      { flag := flag
        owner := none
        producer :=
          [ Action.internal, Action.internal, Action.acquire, Action.setFlag true,
            Action.release, Action.notify, Action.internal, Action.internal ]
        waiter := WaiterPc.start } = true := by
  cases flag <;> decide

/-- Running two schedules one after the other. -/
theorem exec_append (c : Config) (sched₁ sched₂ : List Thread) :
    exec c (sched₁ ++ sched₂) = (exec c sched₁).bind (fun c₁ => exec c₁ sched₂) := by
  induction sched₁ generalizing c with
  | nil => rfl
  | cons t ts ih =>
    simp only [List.cons_append, exec]
    cases stepThread c t with
    | none => rfl
    | some c₁ => exact ih c₁

/-- After a successful exploration every interleaving can be continued until no
thread can step. -/
theorem explore_completes (fuel : Nat) (c₀ : Config) (hexplore : explore fuel c₀ = true)
    (k : Nat) (sched : List Thread) (c : Config) (hexec : exec c₀ sched = some c)
    (hk : fuel ≤ sched.length + k) :
    ∃ (rest : List Thread) (c' : Config), exec c rest = some c' ∧ quiescent c' := by
  induction k generalizing sched c with
  | zero =>
    have hlen := (explore_sound fuel c₀ hexplore sched c hexec).1
    omega
  | succ k ih =>
    by_cases hq : quiescent c
    · exact ⟨[], c, rfl, hq⟩
    · have hstep : ∃ t c₂, stepThread c t = some c₂ := by
        cases hp : stepProducer c with
        | some c₂ => exact ⟨Thread.producer, c₂, hp⟩
        | none =>
          cases hw : stepWaiter c with
          | some c₂ => exact ⟨Thread.waiter, c₂, hw⟩
          | none => exact absurd ⟨hp, hw⟩ hq
      obtain ⟨t, c₂, ht⟩ := hstep
      have hexec₂ : exec c₀ (sched ++ [t]) = some c₂ := by
        rw [exec_append, hexec]
        simp [exec, ht]
      obtain ⟨rest, c', hrest, hq'⟩ :=
        ih (sched ++ [t]) c₂ hexec₂ (by simp only [List.length_append, List.length_singleton]; omega)
      exact ⟨t :: rest, c', by simp [exec, ht, hrest], hq'⟩

/-- A trigger that wrote the flag and signalled without taking the waiter's
mutex would lose the wake-up: the waiter checks the flag, the flag is set and
the signal sent, and then the waiter blocks for good. -/
theorem missed_wakeup_without_mutex :
    exec
        { flag := false
          owner := none
          producer := [Action.setFlag true, Action.notify]
          waiter := WaiterPc.start }
        [Thread.waiter, Thread.waiter, Thread.producer, Thread.producer, Thread.waiter] =
      some { flag := true, owner := none, producer := [], waiter := WaiterPc.blocked } ∧
    quiescent { flag := true, owner := none, producer := [], waiter := WaiterPc.blocked } ∧
    explore 15
        { flag := false
          owner := none
          producer := [Action.setFlag true, Action.notify]
          waiter := WaiterPc.start } = false := by
  decide

/-- C14 (wake-on-trigger without missed wake-up, P3).  A waiter has attached a
pair of valid pointers and checks `hasTriggered()` under the external mutex
before blocking on the condition variable, while another thread performs
`trigger()` with no callback registered.  Then in every interleaving: the run
takes at most 14 steps; a blocked waiter always has the `notify_one` of this
trigger still ahead; the run can always be continued until no thread can step;
and whenever no thread can step, the trigger has finished and the waiter has
finished with `hasTriggered()` read as true. -/
theorem C14_no_missed_wakeup (s : GuardCondition)
    (hpolling : s.executor_callback_ = nullptr)
    (hattached : s.conditionMutex_ ≠ nullptr) (hvariable : s.conditionVariable_ ≠ nullptr)
    (sched : List Thread) (c : Config) (hexec : exec (waitScenario s) sched = some c) :
    sched.length ≤ 14 ∧
    (c.waiter = WaiterPc.blocked → Action.notify ∈ c.producer) ∧
    (quiescent c → c.producer = [] ∧ ∃ woken, c.waiter = WaiterPc.done true woken) ∧
    ∃ (rest : List Thread) (c' : Config),
      exec c rest = some c' ∧ quiescent c' ∧ c'.producer = [] ∧
        ∃ woken, c'.waiter = WaiterPc.done true woken := by
  have _ := hvariable
  have hexplore : explore 15 (waitScenario s) = true := by
    rw [waitScenario_attached s hpolling hattached]
    exact explore_attached s.hasTriggered_
  have hfinal : ∀ d : Config, wokenTriggered d = true →
      d.producer = [] ∧ ∃ woken, d.waiter = WaiterPc.done true woken := by
    intro d hd
    simp only [wokenTriggered, Bool.and_eq_true, Bool.or_eq_true, decide_eq_true_eq] at hd
    exact ⟨hd.1, hd.2.elim (fun h => ⟨true, h⟩) (fun h => ⟨false, h⟩)⟩
  obtain ⟨hlen, hahead, hquiet⟩ := explore_sound 15 (waitScenario s) hexplore sched c hexec
  refine ⟨by omega, ?_, fun hq => hfinal c (hquiet hq), ?_⟩
  · intro hblocked
    simp only [signalAhead, Bool.or_eq_true, decide_eq_true_eq] at hahead
    exact List.elem_iff.mp (hahead.resolve_left (fun h => h hblocked))
  · obtain ⟨rest, c', hrest, hq'⟩ :=
      explore_completes 15 (waitScenario s) hexplore 15 sched c hexec (by omega)
    have hexec' : exec (waitScenario s) (sched ++ rest) = some c' := by
      rw [exec_append, hexec]
      exact hrest
    have hdone := (explore_sound 15 (waitScenario s) hexplore (sched ++ rest) c' hexec').2.2 hq'
    exact ⟨rest, c', hrest, hq', hfinal c' hdone⟩

/-- Witness of C14: the waiter on the pair (5, 6) locks, reads false and blocks
before the trigger starts; the trigger then runs; the waiter has been
notified and is about to reacquire the mutex. -/
theorem C14_no_missed_wakeup_witness :
    exec (waitScenario (GuardCondition.mk false 5 6 0 0 0 0))
        [Thread.waiter, Thread.waiter, Thread.waiter, Thread.producer, Thread.producer,
          Thread.producer, Thread.producer, Thread.producer, Thread.producer] =
      some
        { flag := true
          owner := none
          producer := [Action.internal, Action.internal]
          waiter := WaiterPc.notified } ∧
    ∃ (rest : List Thread) (c' : Config),
      exec
          { flag := true
            owner := none
            producer := [Action.internal, Action.internal]
            waiter := WaiterPc.notified } rest = some c' ∧
        quiescent c' ∧ c'.producer = [] ∧ ∃ woken, c'.waiter = WaiterPc.done true woken :=
  ⟨by decide,
    (C14_no_missed_wakeup (GuardCondition.mk false 5 6 0 0 0 0) (by decide) (by decide)
      (by decide)
      [Thread.waiter, Thread.waiter, Thread.waiter, Thread.producer, Thread.producer,
        Thread.producer, Thread.producer, Thread.producer, Thread.producer]
      { flag := true
        owner := none
        producer := [Action.internal, Action.internal]
        waiter := WaiterPc.notified } (by decide)).2.2.2⟩

end GuardConditionModel
